import Mathlib

set_option maxRecDepth 8000

/-!
Verification of the deterministic texture-atlas generator
(`generate_terrain.py`) against its design specification.

The Python module is shallowly embedded: the atlas is a total function
from integer pixel coordinates to RGBA colors, tile generators are pure
functions from pixel coordinates to colors (Python lists of rows become
Lean lists built from `List.range`), and Python's arbitrary-precision
integer arithmetic is mirrored on `Int` (`%` is Python's nonnegative
remainder, `>>>` is the arithmetic right shift, `Int.xor`/`Int.land`
are the two's-complement bitwise operations, exactly as in Python).
-/

/-! ### Atlas configuration (source lines 10–14) -/

def TILE_SIZE : Nat := 16
def TILES_PER_ROW : Nat := 8
def TILE_COUNT : Nat := 64
def ATLAS_WIDTH : Nat := TILES_PER_ROW * TILE_SIZE
def ATLAS_HEIGHT : Nat := ((TILE_COUNT + TILES_PER_ROW - 1) / TILES_PER_ROW) * TILE_SIZE

/-! ### Colors and pixel grids -/

/-- An RGBA tuple, exactly as the Python `(r, g, b, a)` tuples. -/
abbrev Color := Int × Int × Int × Int

/-- A tile is represented as a list of rows of colors (`pixels[y][x]`). -/
abbrev Grid := List (List Color)

def transparent : Color := (0, 0, 0, 0)

/-- Python `pixels[y][x]` (only used where the indices are in range;
the default is never reached there). -/
def pixelAt (g : Grid) (x y : Nat) : Color :=
  (g.getD y []).getD x transparent

/-- Build a 16×16 row-major grid from a per-pixel function, mirroring the
`for y in range(TILE_SIZE): for x in range(TILE_SIZE): row.append …` loops. -/
def mkGrid (f : Nat → Nat → Color) : Grid :=
  (List.range TILE_SIZE).map fun y => (List.range TILE_SIZE).map fun x => f x y

/-! ### Noise and clamp (source lines 39–47) -/

/-- Python `noise(x, y, seed=0)`.  `^`, `>>`, `&` on Python ints are
two's-complement bitwise operations; `Int.xor`, `>>>` (arithmetic shift)
and `Int.land` have exactly those semantics. -/
def noise (x y : Int) (seed : Int := 0) : Int :=
  let n : Int := x * 374761393 + y * 668265263 + seed * 1597463007
  let n : Int := (Int.xor n (n >>> (13 : Int))) * 1274126177
  Int.land (Int.xor n (n >>> (16 : Int))) 0xFF

/-- Python `clamp(v, min_v=0, max_v=255) = max(min_v, min(max_v, v))`. -/
def clamp (v : Int) (min_v : Int := 0) (max_v : Int := 255) : Int :=
  max min_v (min max_v v)

/-! ### The atlas and the compositor (source lines 17–37) -/

/-- The mutable RGBA buffer is modelled as a total function on integer
coordinates; only the rectangle `[0, ATLAS_WIDTH) × [0, ATLAS_HEIGHT)`
is ever written (that is claim C7). -/
abbrev Atlas := Int → Int → Color

/-- Python `Image.new('RGBA', …, (0, 0, 0, 0))`: fully transparent. -/
def initialAtlas : Atlas := fun _ _ => transparent

/-- Python `set_pixel(x, y, color)`: write with bounds checking. -/
def set_pixel (a : Atlas) (x y : Int) (c : Color) : Atlas :=
  if 0 ≤ x ∧ x < (ATLAS_WIDTH : Int) ∧ 0 ≤ y ∧ y < (ATLAS_HEIGHT : Int) then
    fun px py => if px = x ∧ py = y then c else a px py
  else a

/-- Python `tile_origin(tile_idx)`. -/
def tile_origin (tile_idx : Nat) : Nat × Nat :=
  (tile_idx % TILES_PER_ROW * TILE_SIZE, tile_idx / TILES_PER_ROW * TILE_SIZE)

/-- One iteration of the inner `for x in range(TILE_SIZE)` loop of
`draw_tile`: the guard `y < len(pixels) and x < len(pixels[y])` protects
the `pixels[y][x]` read. -/
def cellStep (ox oy : Nat) (pixels : Grid) (y : Nat) (a : Atlas) (x : Nat) : Atlas :=
  if y < pixels.length ∧ x < (pixels.getD y []).length then
    set_pixel a ((ox + x : Nat) : Int) ((oy + y : Nat) : Int) (pixelAt pixels x y)
  else a

/-- Python `draw_tile(tile_idx, pixels)`: two nested loops over the
16×16 cell positions. -/
def draw_tile (tile_idx : Nat) (pixels : Grid) (a : Atlas) : Atlas :=
  let o := tile_origin tile_idx
  (List.range TILE_SIZE).foldl
    (fun a y => (List.range TILE_SIZE).foldl (cellStep o.1 o.2 pixels y) a) a

/-! ### Tile generators (source lines 53–705)

Each Python generator builds its 16×16 list of rows from a per-pixel
computation; the per-pixel computation is embedded as a `…Pixel`
function and the returned list as `mkGrid` of it.  Python float
geometry (`dist < r` for the hand-placed disks, the default ellipse,
`int(dist * 1.8)`, `int(r * 0.7)`, `int(r * 0.42)`) is modelled by the
equivalent exact integer comparisons; on every reachable input these
agree with the double-precision evaluation (the only divergent inputs
of `int(r * 0.7)` are `r = 170, 180`, outside the reachable range
`[110, 169]`). -/

/-- Tile 0: AIR — `[[(0,0,0,0)] * TILE_SIZE for _ in range(TILE_SIZE)]`. -/
def gen_air : Grid :=
  List.replicate TILE_SIZE (List.replicate TILE_SIZE ((0, 0, 0, 0) : Color))

/-- Tile 1: STONE, per pixel. -/
def stonePixel (x y : Nat) : Color :=
  let n := noise x y 1
  let v : Int := 120 + ((n % 40) - 20)
  let v := if noise x y 7 % 16 < 2 then v - 60
           else if noise x y 13 % 12 < 2 then v + 40
           else v
  let v := clamp v
  (v, v, v, 255)

def gen_stone : Grid := mkGrid stonePixel

/-- The hand-placed cobblestone disks `(x, y, radius, base_value)`; the
radius is stored doubled (`7` stands for `3.5`) so that `dist < radius`
is the exact integer test `4·dist² < (2·radius)²`. -/
def cobbleStones : List (Int × Int × Int × Int) :=
  [(3, 3, 7, 175), (11, 3, 6, 155), (7, 8, 8, 185), (2, 11, 5, 165),
   (13, 12, 6, 170), (7, 14, 5, 160), (14, 7, 4, 180)]

/-- Python `dist < sr` for a disk `s` (with doubled radius stored). -/
def cobbleHit (x y : Nat) (s : Int × Int × Int × Int) : Bool :=
  4 * (((x : Int) - s.1) ^ 2 + ((y : Int) - s.2.1) ^ 2) < s.2.2.1 * s.2.2.1

/-- Tile 2: COBBLESTONE, per pixel.  The Python `for … break` loop over
the disks is the first disk that `cobbleHit`s (`List.find?`). -/
def cobblestonePixel (x y : Nat) : Color :=
  match cobbleStones.find? (cobbleHit x y) with
  | some s =>
      let sx := s.1
      let sy := s.2.1
      let r2 := s.2.2.1
      let base := s.2.2.2
      let d2 : Int := ((x : Int) - sx) ^ 2 + ((y : Int) - sy) ^ 2
      let v := base + (noise x y 5 % 25) - 12
      -- `dist < sr * 0.7` is the exact integer test `400·dist² < 49·(2·sr)²`
      let v := if (x : Int) < sx ∧ (y : Int) < sy ∧ 400 * d2 < 49 * (r2 * r2) then v + 50
               else if sx < (x : Int) ∧ sy < (y : Int) then v - 25
               else v
      let v := if 160 < v ∧ noise x y 17 % 12 < 1 then (255 : Int) else v
      let v := clamp v
      (v, v, v, 255)
  | none =>
      let v : Int := 5 + (noise x y 2 % 15)
      let v := if noise x y 11 % 8 < 1 then (0 : Int) else v
      let v := clamp v
      (v, v, v, 255)

def gen_cobblestone : Grid := mkGrid cobblestonePixel

/-- Tile 3: DIRT, per pixel. -/
def dirtPixel (x y : Nat) : Color :=
  let n := noise x y 3
  let r : Int := 139 + ((n % 30) - 15)
  let g : Int := 90 + (((n >>> (2 : Int)) % 25) - 12)
  let b : Int := 60 + (((n >>> (4 : Int)) % 20) - 10)
  let pebble : Bool := noise x y 19 % 25 < 2
  let r := if pebble then r + 35 else r
  let g := if pebble then g + 25 else g
  let b := if pebble then b + 20 else b
  let dark : Bool := noise x y 23 % 30 < 1
  let r := if dark then r - 40 else r
  let g := if dark then g - 30 else g
  let b := if dark then b - 25 else b
  let grain : Bool := noise x y 29 % 15 < 1
  let r := if grain then r + 20 else r
  let g := if grain then g + 15 else g
  let b := if grain then b + 10 else b
  (clamp r, clamp g, clamp b, 255)

def gen_dirt : Grid := mkGrid dirtPixel

/-- Tile 4: GRASS TOP, per pixel. -/
def grassTopPixel (x y : Nat) : Color :=
  let n := noise x y 4
  let r : Int := 105 + ((n % 30) - 10)
  let g : Int := 195 + (((n >>> (2 : Int)) % 35) - 10)
  let b : Int := 95 + (((n >>> (4 : Int)) % 25) - 10)
  let lime : Bool := noise x y 31 % 12 < 2
  let r := if lime then r + 30 else r
  let g := if lime then g + 45 else g
  let b := if lime then b + 25 else b
  let darkAccent : Bool := noise x y 37 % 18 < 1
  let r := if darkAccent then r - 25 else r
  let g := if darkAccent then g - 35 else g
  let b := if darkAccent then b - 20 else b
  let blade : Bool := noise x y 41 % 20 < 1
  let r := if blade then r + 40 else r
  let g := if blade then g + 30 else g
  let b := if blade then b - 10 else b
  (clamp r 50 255, clamp g 100 255, clamp b 50 255, 255)

def gen_grass_top : Grid := mkGrid grassTopPixel

/-- Tile 5: GRASS SIDE, per pixel: the top 3 rows come from the
grass-top grid, the rest from the dirt grid (`grass_top[y][x]`,
`dirt[y][x]`). -/
def grassSidePixel (x y : Nat) : Color :=
  if y < 3 then pixelAt gen_grass_top x y else pixelAt gen_dirt x y

def gen_grass_side : Grid := mkGrid grassSidePixel

/-- Tile 6: SAND, per pixel. -/
def sandPixel (x y : Nat) : Color :=
  let n := noise x y 6
  let r : Int := 210 + (n % 20) - 10
  let g : Int := 200 + ((n >>> (2 : Int)) % 18) - 9
  let b : Int := 145 + ((n >>> (4 : Int)) % 22) - 11
  (clamp r, clamp g, clamp b, 255)

def gen_sand : Grid := mkGrid sandPixel

/-- Tile 7: GRAVEL, per pixel. -/
def gravelPixel (x y : Nat) : Color :=
  let n := noise x y 7
  let v : Int := 125 + (n % 35) - 17
  let v := if noise x y 43 % 15 < 2 then v - 45 else v
  let r := v
  let g := clamp (v - 8)
  let b := clamp (v - 12)
  (clamp r, clamp g, clamp b, 255)

def gen_gravel : Grid := mkGrid gravelPixel

/-- Floor of the square root, as the greatest `k ≤ n` with `k·k ≤ n`
(structurally recursive, unlike `Nat.sqrt`). -/
def floorSqrt (n : Nat) : Nat := Nat.findGreatest (fun k => k * k ≤ n) n

/-- Tile 8: LOG END, per pixel.  `int(dist * 1.8)` with
`dist = sqrt((x-7.5)² + (y-7.5)²)` equals `floorSqrt (81·(4·dist²) / 100)`,
and `int(r * 0.7)`, `int(r * 0.42)` equal `r * 7 / 10`, `r * 42 / 100`
on the reachable `r ∈ [110, 169]`. -/
def logEndPixel (x y : Nat) : Color :=
  let m : Int := (2 * (x : Int) - 15) ^ 2 + (2 * (y : Int) - 15) ^ 2
  let ring := floorSqrt (81 * m.toNat / 100) % 2
  let base : Int := if ring = 0 then 160 else 120
  let n := noise x y 8
  let r := base + (n % 20) - 10
  let g := clamp (r * 7 / 10)
  let b := clamp (r * 42 / 100)
  (clamp r, clamp g, clamp b, 255)

def gen_log_end : Grid := mkGrid logEndPixel

/-- Tile 9: LOG BARK, per pixel. -/
def logBarkPixel (x y : Nat) : Color :=
  let n := noise x y 9
  let r : Int := 145 + ((n % 25) - 12)
  let g : Int := 115 + (((n >>> (2 : Int)) % 20) - 10)
  let b : Int := 70 + (((n >>> (4 : Int)) % 18) - 9)
  let stripe : Bool := x % 4 = 0
  let r := if stripe then r - 20 else r
  let g := if stripe then g - 15 else g
  let b := if stripe then b - 10 else b
  (clamp r, clamp g, clamp b, 255)

def gen_log_bark : Grid := mkGrid logBarkPixel

/-- Tile 10: LEAVES, per pixel. -/
def leavesPixel (x y : Nat) : Color :=
  let n := noise x y 10
  let r : Int := 80 + ((n % 35) - 17)
  let g : Int := 140 + (((n >>> (2 : Int)) % 40) - 20)
  let b : Int := 70 + (((n >>> (4 : Int)) % 30) - 15)
  if noise x y 47 % 22 < 1 then
    (clamp r 40 120, clamp g 80 180, clamp b 40 120, 160)
  else
    (clamp r 50 140, clamp g 90 200, clamp b 50 130, 220)

def gen_leaves : Grid := mkGrid leavesPixel

/-- Tile 11: WATER, per pixel. -/
def waterPixel (x y : Nat) : Color :=
  let n := noise x y 11
  let r : Int := 50 + (n % 18) - 9
  let g : Int := 105 + ((n >>> (2 : Int)) % 22) - 11
  let b : Int := 220 + ((n >>> (4 : Int)) % 25) - 12
  (clamp r, clamp g, clamp b, 140)

def gen_water : Grid := mkGrid waterPixel

/-- Tiles 12–15: ORE family, per pixel: stone base + colored veins. -/
def orePixel (tile_idx ore_r ore_g ore_b : Int) (x y : Nat) : Color :=
  if noise ((x : Int) * 3 + 7) ((y : Int) * 5 + 11) tile_idx % 16 < 3 then
    let n := noise x y (tile_idx + 50)
    (clamp (ore_r + (n % 20) - 10),
     clamp (ore_g + ((n >>> (2 : Int)) % 20) - 10),
     clamp (ore_b + ((n >>> (4 : Int)) % 20) - 10), 255)
  else
    pixelAt gen_stone x y

def gen_ore (tile_idx ore_r ore_g ore_b : Int) : Grid :=
  mkGrid (orePixel tile_idx ore_r ore_g ore_b)

/-- Tile 16: BEDROCK, per pixel. -/
def bedrockPixel (x y : Nat) : Color :=
  let n := noise x y 16
  let v : Int := 25 + (n % 30)
  (clamp v, clamp v, clamp v, 255)

def gen_bedrock : Grid := mkGrid bedrockPixel

/-- Tile 19: PLANKS, per pixel. -/
def planksPixel (x y : Nat) : Color :=
  let n := noise x y 19
  let r : Int := 175 + ((n % 20) - 10)
  let g : Int := 140 + (((n >>> (2 : Int)) % 18) - 9)
  let b : Int := 90 + (((n >>> (4 : Int)) % 15) - 7)
  let seam : Bool := y % 4 = 0
  let r := if seam then r - 30 else r
  let g := if seam then g - 25 else g
  let b := if seam then b - 20 else b
  let woodGrain : Bool := (x + y / 2) % 3 = 0
  let r := if woodGrain then r - 10 else r
  let g := if woodGrain then g - 8 else g
  let b := if woodGrain then b - 6 else b
  (clamp r, clamp g, clamp b, 255)

def gen_planks : Grid := mkGrid planksPixel

/-- Solid-icon family, per pixel.  The default shape
`(x-7.5)²/25 + (y-7.5)²/20 < 1` is the exact integer test
`4·(2x-15)² + 5·(2y-15)² < 400`. -/
def solidItemPixel (base_r base_g base_b : Int)
    (shape_mask : Option (Nat → Nat → Bool)) (x y : Nat) : Color :=
  match shape_mask with
  | none =>
      if 4 * (2 * (x : Int) - 15) ^ 2 + 5 * (2 * (y : Int) - 15) ^ 2 < 400 then
        let n := noise x y 99
        (clamp (base_r + (n % 15) - 7),
         clamp (base_g + ((n >>> (2 : Int)) % 15) - 7),
         clamp (base_b + ((n >>> (4 : Int)) % 15) - 7), 255)
      else (0, 0, 0, 0)
  | some mask =>
      if mask x y then
        let n := noise x y 99
        (clamp (base_r + (n % 15) - 7),
         clamp (base_g + ((n >>> (2 : Int)) % 15) - 7),
         clamp (base_b + ((n >>> (4 : Int)) % 15) - 7), 255)
      else (0, 0, 0, 0)

def gen_solid_item (base_r base_g base_b : Int)
    (shape_mask : Option (Nat → Nat → Bool) := none) : Grid :=
  mkGrid (solidItemPixel base_r base_g base_b shape_mask)

/-- Tile 33: GLASS, per pixel. -/
def glassPixel (x y : Nat) : Color :=
  let n := noise x y 33
  if x = 0 ∨ x = 15 ∨ y = 0 ∨ y = 15 then
    (clamp (170 + (n % 15)), clamp (190 + ((n >>> (2 : Int)) % 15)),
     clamp (200 + ((n >>> (4 : Int)) % 15)), 220)
  else
    (clamp (200 + (n % 10)), clamp (220 + ((n >>> (2 : Int)) % 10)),
     clamp (230 + ((n >>> (4 : Int)) % 10)), 60)

def gen_glass : Grid := mkGrid glassPixel

/-- Tile 46: LAVA, per pixel. -/
def lavaPixel (x y : Nat) : Color :=
  let n1 := noise ((x : Int) * 2) ((y : Int) * 3) 461
  let n2 := noise ((x : Int) * 5 + 7) ((y : Int) * 4 + 3) 462
  let r : Int := 210 + (n1 % 30)
  let g : Int := 90 + ((n1 >>> (2 : Int)) % 40)
  let b : Int := 15 + ((n1 >>> (4 : Int)) % 20)
  let vein : Bool := n2 % 20 < 2
  let r := if vein then r - 80 else r
  let g := if vein then g - 40 else g
  let b := if vein then b - 5 else b
  let hot : Bool := n2 % 25 < 1
  let r := if hot then (255 : Int) else r
  let g := if hot then (230 : Int) else g
  let b := if hot then (60 : Int) else b
  (clamp r, clamp g, clamp b, 255)

def gen_lava : Grid := mkGrid lavaPixel

/-- Tile 47: OBSIDIAN, per pixel. -/
def obsidianPixel (x y : Nat) : Color :=
  let n := noise x y 47
  let r : Int := 18 + (n % 15)
  let g : Int := 10 + ((n >>> (2 : Int)) % 10)
  let b : Int := 28 + ((n >>> (4 : Int)) % 18)
  let purple : Bool := n % 20 < 1
  let r := if purple then r + 25 else r
  let b := if purple then b + 30 else b
  (clamp r, clamp g, clamp b, 255)

def gen_obsidian : Grid := mkGrid obsidianPixel

/-- Tile 48: FARMLAND, per pixel: darkened dirt with furrows. -/
def farmlandPixel (x y : Nat) : Color :=
  let c := pixelAt gen_dirt x y
  let r := clamp (c.1 - 25)
  let g := clamp (c.2.1 - 20)
  let b := clamp (c.2.2.1 - 15)
  let furrow : Bool := y % 4 < 2
  let r := if furrow then clamp (r - 20) else r
  let g := if furrow then clamp (g - 15) else g
  let b := if furrow then clamp (b - 10) else b
  (r, g, b, c.2.2.2)

def gen_farmland : Grid := mkGrid farmlandPixel

/-- The wheat stage height table `[4, 6, 8, 10, 11, 13, 14, 16]`. -/
def wheatHeightTable : List Nat := [4, 6, 8, 10, 11, 13, 14, 16]

/-- Tiles 49–56: WHEAT growth stages 0–7, per pixel. -/
def wheatStagePixel (stage : Nat) (x y : Nat) : Color :=
  let height := wheatHeightTable.getD stage 0
  let stalk_r : Int := if stage ≤ 2 then 55 else if stage ≤ 4 then 65
                       else if stage = 5 then 110 else if stage = 6 then 140 else 180
  let stalk_g : Int := if stage ≤ 2 then 150 else if stage ≤ 4 then 135
                       else if stage = 5 then 145 else if stage = 6 then 140 else 155
  let stalk_b : Int := if stage ≤ 2 then 35 else if stage ≤ 4 then 30
                       else if stage = 5 then 35 else if stage = 6 then 30 else 45
  let has_head : Bool := 5 ≤ stage
  let head_r : Int := if stage = 5 then 150 else if stage = 6 then 190 else 210
  let head_g : Int := if stage = 5 then 130 else if stage = 6 then 160 else 180
  let head_b : Int := if stage = 5 then 35 else if stage = 6 then 45 else 55
  let pixels_from_bottom := TILE_SIZE - 1 - y
  if height ≤ pixels_from_bottom then (0, 0, 0, 0)
  else
    let is_stalk : Bool := decide (x ∈ [3, 7, 11, 14])
    let is_leaf : Bool := decide (x ∈ [2, 4, 6, 8, 10, 12, 13, 15]) &&
      decide (1 < pixels_from_bottom) && decide (pixels_from_bottom < height - 1) &&
      decide ((pixels_from_bottom + x) % 3 = 0)
    let is_head : Bool := has_head && decide (height - 3 ≤ pixels_from_bottom) &&
      (is_stalk || (decide (2 ≤ x) && decide (x ≤ 14) &&
                    decide ((pixels_from_bottom + x) % 2 = 0)))
    if is_head then
      let n := noise x y ((stage : Int) + 490)
      (clamp (head_r + (n % 15) - 7), clamp (head_g + ((n >>> (2 : Int)) % 15) - 7),
       clamp (head_b + ((n >>> (4 : Int)) % 15) - 7), 255)
    else if is_stalk then
      let n := noise x y ((stage : Int) + 490)
      (clamp (stalk_r + (n % 12) - 6), clamp (stalk_g + ((n >>> (2 : Int)) % 12) - 6),
       clamp (stalk_b + ((n >>> (4 : Int)) % 12) - 6), 255)
    else if is_leaf then
      let n := noise x y ((stage : Int) + 491)
      (clamp (stalk_r - 10 + (n % 10) - 5), clamp (stalk_g + 10 + ((n >>> (2 : Int)) % 10) - 5),
       clamp (stalk_b - 5 + ((n >>> (4 : Int)) % 10) - 5), 200)
    else (0, 0, 0, 0)

def gen_wheat_stage (stage : Nat) : Grid := mkGrid (wheatStagePixel stage)

/-- Tile 57: HOE icon, per pixel. -/
def hoePixel (x y : Nat) : Color :=
  let hx : Int := (x : Int) - 2
  let hy : Int := ((TILE_SIZE : Int) - 1 - (y : Int)) - 2
  let is_handle : Bool := decide (0 ≤ hx) && decide (hx ≤ 8) && decide (0 ≤ hy) &&
    decide (hy ≤ 8) && decide (|hx - hy| ≤ 1)
  let is_blade : Bool := decide (8 ≤ x) && decide (x ≤ 14) && decide (2 ≤ y) && decide (y ≤ 5)
  if is_blade then
    let n := noise x y 57
    let v := 130 + (n % 20) - 10
    (clamp v, clamp v, clamp v, 255)
  else if is_handle then
    let n := noise x y 571
    (clamp (115 + (n % 15) - 7), clamp (80 + ((n >>> (2 : Int)) % 15) - 7),
     clamp (45 + ((n >>> (4 : Int)) % 15) - 7), 255)
  else (0, 0, 0, 0)

def gen_hoe_icon : Grid := mkGrid hoePixel

/-- The hand-placed seed positions of tile 58. -/
def seedPositions : List (Int × Int) :=
  [(4, 6), (7, 4), (10, 7), (5, 10), (8, 9), (12, 5), (6, 13), (11, 11), (3, 8), (9, 12)]

/-- Tile 58: SEEDS icon, per pixel. -/
def seedsPixel (x y : Nat) : Color :=
  let is_seed : Bool := seedPositions.any fun p =>
    decide (|(x : Int) - p.1| ≤ 1) && decide (|(y : Int) - p.2| = 0)
  if is_seed then
    let n := noise x y 58
    (clamp (90 + (n % 15) - 7), clamp (120 + ((n >>> (2 : Int)) % 15) - 7),
     clamp (35 + ((n >>> (4 : Int)) % 15) - 7), 255)
  else (0, 0, 0, 0)

def gen_seeds_icon : Grid := mkGrid seedsPixel

/-- Tile 59: WHEAT ITEM, per pixel. -/
def wheatItemPixel (x y : Nat) : Color :=
  let stalk1 : Bool := decide (x = 6) && decide (5 ≤ y) && decide (y ≤ 14)
  let stalk2 : Bool := decide (x = 8) && decide (4 ≤ y) && decide (y ≤ 14)
  let stalk3 : Bool := decide (x = 10) && decide (5 ≤ y) && decide (y ≤ 14)
  let head1 : Bool := decide (5 ≤ x) && decide (x ≤ 7) && decide (2 ≤ y) && decide (y ≤ 5)
  let head2 : Bool := decide (7 ≤ x) && decide (x ≤ 9) && decide (1 ≤ y) && decide (y ≤ 4)
  let head3 : Bool := decide (9 ≤ x) && decide (x ≤ 11) && decide (2 ≤ y) && decide (y ≤ 5)
  if head1 || head2 || head3 then
    let n := noise x y 59
    (clamp (210 + (n % 15) - 7), clamp (175 + ((n >>> (2 : Int)) % 15) - 7),
     clamp (50 + ((n >>> (4 : Int)) % 15) - 7), 255)
  else if stalk1 || stalk2 || stalk3 then
    let n := noise x y 591
    (clamp (170 + (n % 15) - 7), clamp (145 + ((n >>> (2 : Int)) % 15) - 7),
     clamp (40 + ((n >>> (4 : Int)) % 15) - 7), 255)
  else (0, 0, 0, 0)

def gen_wheat_item : Grid := mkGrid wheatItemPixel

/-! ### The fixed manifest and the composited atlas (source lines 715–767)

The module-level `draw_tile(idx, gen_…())` calls, in program order.
Indices 20–30, 35–36, 40–45 and 60–63 are deliberately never drawn. -/

def manifest : List (Nat × Grid) :=
  [(0, gen_air), (1, gen_stone), (2, gen_cobblestone), (3, gen_dirt),
   (4, gen_grass_top), (5, gen_grass_side), (6, gen_sand), (7, gen_gravel),
   (8, gen_log_end), (9, gen_log_bark), (10, gen_leaves), (11, gen_water),
   (12, gen_ore 12 40 40 40), (13, gen_ore 13 170 130 90),
   (14, gen_ore 14 245 205 0), (15, gen_ore 15 90 210 245),
   (16, gen_bedrock), (17, gen_solid_item 230 130 120),
   (18, gen_solid_item 130 95 60), (19, gen_planks),
   (31, gen_solid_item 30 30 30), (32, gen_solid_item 190 185 180),
   (33, gen_glass), (34, gen_solid_item 190 120 75),
   (37, gen_solid_item 110 220 245), (38, gen_solid_item 50 35 20),
   (39, gen_solid_item 245 190 40), (46, gen_lava), (47, gen_obsidian),
   (48, gen_farmland)] ++
  (List.range 8).map (fun i => (49 + i, gen_wheat_stage i)) ++
  [(57, gen_hoe_icon), (58, gen_seeds_icon), (59, gen_wheat_item)]

/-- The atlas after all manifest draws — the pixel content of the
persisted image. -/
def finalAtlas : Atlas :=
  manifest.foldl (fun a e => draw_tile e.1 e.2 a) initialAtlas

/-! ### Derived predicates and the spec-side hash formula -/

/-- Every channel of the color lies in `[0, 255]`. -/
def ColorInRange (c : Color) : Prop :=
  0 ≤ c.1 ∧ c.1 ≤ 255 ∧ 0 ≤ c.2.1 ∧ c.2.1 ≤ 255 ∧
  0 ≤ c.2.2.1 ∧ c.2.2.1 ≤ 255 ∧ 0 ≤ c.2.2.2 ∧ c.2.2.2 ≤ 255

/-- Every row entry of the grid is a color within range. -/
def GridInRange (g : Grid) : Prop :=
  ∀ row ∈ g, ∀ c ∈ row, ColorInRange c

/-- A row of a grid contains at least one pixel with nonzero alpha. -/
def rowVisible (g : Grid) (y : Nat) : Bool :=
  (g.getD y []).any fun c => c.2.2.2 ≠ 0

/-- The tile indices the fixed manifest never draws. -/
def UnusedIdx (i : Nat) : Prop :=
  (20 ≤ i ∧ i ≤ 30) ∨ (35 ≤ i ∧ i ≤ 36) ∨ (40 ≤ i ∧ i ≤ 45) ∨ (60 ≤ i ∧ i ≤ 63)

/-- The spec's stated contract formula for `hash(x, y, seed)`, written
out with its named constants, used to check the implementation against
the spec's wording. -/
def hashSpec (x y seed : Int) : Int :=
  let c1 : Int := 374761393
  let c2 : Int := 668265263
  let c3 : Int := 1597463007
  let c4 : Int := 1274126177
  let n := x * c1 + y * c2 + seed * c3
  let mixed := (Int.xor n (n >>> (13 : Int))) * c4
  Int.land (Int.xor mixed (mixed >>> (16 : Int))) 0xFF

/-! ### Helper lemmas: channel ranges -/


theorem clamp_mem (v lo hi : Int) (h0 : 0 ≤ lo) (h1 : lo ≤ 255) (h2 : hi ≤ 255) :
    0 ≤ clamp v lo hi ∧ clamp v lo hi ≤ 255 := by
  unfold clamp; omega

theorem clamp01 (v : Int) : 0 ≤ clamp v ∧ clamp v ≤ 255 :=
  clamp_mem v 0 255 le_rfl (by norm_num) le_rfl

theorem colorInRange_mk (r g b a : Int) (hr : 0 ≤ r ∧ r ≤ 255) (hg : 0 ≤ g ∧ g ≤ 255)
    (hb : 0 ≤ b ∧ b ≤ 255) (ha : 0 ≤ a ∧ a ≤ 255) : ColorInRange (r, g, b, a) :=
  ⟨hr.1, hr.2, hg.1, hg.2, hb.1, hb.2, ha.1, ha.2⟩

theorem rgb_ok (r g b a : Int) (h0 : 0 ≤ a) (h1 : a ≤ 255) :
    ColorInRange (clamp r, clamp g, clamp b, a) :=
  colorInRange_mk _ _ _ _ (clamp01 r) (clamp01 g) (clamp01 b) ⟨h0, h1⟩

theorem transparent_inRange : ColorInRange transparent := by
  unfold transparent ColorInRange; norm_num

/-! ### Helper lemmas: the noise range -/

theorem ldiff_le_left (n m : Nat) : Nat.ldiff n m ≤ n := by
  apply Nat.le_of_testBit
  intro i h
  rw [Nat.testBit_ldiff] at h
  rw [Bool.and_eq_true] at h
  exact h.1

theorem land255_mem (a : Int) : 0 ≤ Int.land a 255 ∧ Int.land a 255 ≤ 255 := by
  cases a with
  | ofNat m =>
      have h : Int.land (Int.ofNat m) 255 = ((m &&& 255 : Nat) : Int) := rfl
      rw [h]
      refine ⟨Int.natCast_nonneg _, ?_⟩
      exact_mod_cast (Nat.and_le_right : m &&& 255 ≤ 255)
  | negSucc m =>
      have h : Int.land (Int.negSucc m) 255 = ((Nat.ldiff 255 m : Nat) : Int) := rfl
      rw [h]
      refine ⟨Int.natCast_nonneg _, ?_⟩
      exact_mod_cast ldiff_le_left 255 m

theorem noise_mem (x y seed : Int) : 0 ≤ noise x y seed ∧ noise x y seed ≤ 255 :=
  land255_mem _

/-! ### Helper lemmas: grids built by `mkGrid` -/

theorem pixelAt_mkGrid (f : Nat → Nat → Color) (x y : Nat)
    (hx : x < TILE_SIZE) (hy : y < TILE_SIZE) :
    pixelAt (mkGrid f) x y = f x y := by
  simp [pixelAt, mkGrid, List.getD_eq_getElem?_getD, List.getElem?_map, List.getElem?_range,
    hx, hy]

theorem gridInRange_mkGrid (f : Nat → Nat → Color)
    (hf : ∀ x y, ColorInRange (f x y)) : GridInRange (mkGrid f) := by
  intro row hrow c hc
  simp only [mkGrid, List.mem_map, List.mem_range] at hrow
  obtain ⟨y, -, rfl⟩ := hrow
  simp only [List.mem_map, List.mem_range] at hc
  obtain ⟨x, -, rfl⟩ := hc
  exact hf x y

theorem pixelAt_inRange (g : Grid) (hg : GridInRange g) (x y : Nat) :
    ColorInRange (pixelAt g x y) := by
  unfold pixelAt
  by_cases hy : y < g.length
  · have hrow : g.getD y [] ∈ g := by
      rw [List.getD_eq_getElem?_getD, List.getElem?_eq_getElem hy]
      exact List.getElem_mem _
    by_cases hx : x < (g.getD y []).length
    · have hc : (g.getD y []).getD x transparent ∈ g.getD y [] := by
        rw [List.getD_eq_getElem?_getD (g.getD y []), List.getElem?_eq_getElem hx]
        exact List.getElem_mem _
      exact hg _ hrow _ hc
    · rw [List.getD_eq_getElem?_getD (g.getD y []), List.getElem?_eq_none (by omega)]
      exact transparent_inRange
  · rw [List.getD_eq_getElem?_getD g, List.getElem?_eq_none (by omega)]
    simp only [Option.getD_none]
    rw [List.getD_eq_getElem?_getD, List.getElem?_eq_none (by simp)]
    simp only [Option.getD_none]
    exact transparent_inRange

/-! ### Per-generator channel-range lemmas (for C3) -/

theorem gen_air_range : GridInRange gen_air := by
  intro row hrow c hc
  rw [List.eq_of_mem_replicate hrow] at hc
  rw [List.eq_of_mem_replicate hc]
  norm_num [ColorInRange]

theorem stonePixel_range (x y : Nat) : ColorInRange (stonePixel x y) :=
  rgb_ok _ _ _ 255 (by norm_num) (by norm_num)

theorem cobblestonePixel_range (x y : Nat) : ColorInRange (cobblestonePixel x y) := by
  unfold cobblestonePixel
  cases cobbleStones.find? (cobbleHit x y) with
  | none => exact rgb_ok _ _ _ 255 (by norm_num) (by norm_num)
  | some s => exact rgb_ok _ _ _ 255 (by norm_num) (by norm_num)

theorem dirtPixel_range (x y : Nat) : ColorInRange (dirtPixel x y) :=
  rgb_ok _ _ _ 255 (by norm_num) (by norm_num)

theorem grassTopPixel_range (x y : Nat) : ColorInRange (grassTopPixel x y) :=
  colorInRange_mk _ _ _ _ (clamp_mem _ 50 255 (by norm_num) (by norm_num) le_rfl)
    (clamp_mem _ 100 255 (by norm_num) (by norm_num) le_rfl)
    (clamp_mem _ 50 255 (by norm_num) (by norm_num) le_rfl) (by norm_num)

theorem gen_stone_range : GridInRange gen_stone :=
  gridInRange_mkGrid _ stonePixel_range

theorem gen_dirt_range : GridInRange gen_dirt :=
  gridInRange_mkGrid _ dirtPixel_range

theorem gen_grass_top_range : GridInRange gen_grass_top :=
  gridInRange_mkGrid _ grassTopPixel_range

theorem grassSidePixel_range (x y : Nat) : ColorInRange (grassSidePixel x y) := by
  unfold grassSidePixel
  split
  · exact pixelAt_inRange _ gen_grass_top_range x y
  · exact pixelAt_inRange _ gen_dirt_range x y

theorem sandPixel_range (x y : Nat) : ColorInRange (sandPixel x y) :=
  rgb_ok _ _ _ 255 (by norm_num) (by norm_num)

theorem gravelPixel_range (x y : Nat) : ColorInRange (gravelPixel x y) :=
  rgb_ok _ _ _ 255 (by norm_num) (by norm_num)

theorem logEndPixel_range (x y : Nat) : ColorInRange (logEndPixel x y) :=
  rgb_ok _ _ _ 255 (by norm_num) (by norm_num)

theorem logBarkPixel_range (x y : Nat) : ColorInRange (logBarkPixel x y) :=
  rgb_ok _ _ _ 255 (by norm_num) (by norm_num)

theorem leavesPixel_range (x y : Nat) : ColorInRange (leavesPixel x y) := by
  unfold leavesPixel
  dsimp only
  split
  · exact colorInRange_mk _ _ _ _ (clamp_mem _ 40 120 (by norm_num) (by norm_num) (by norm_num))
      (clamp_mem _ 80 180 (by norm_num) (by norm_num) (by norm_num))
      (clamp_mem _ 40 120 (by norm_num) (by norm_num) (by norm_num)) (by norm_num)
  · exact colorInRange_mk _ _ _ _ (clamp_mem _ 50 140 (by norm_num) (by norm_num) (by norm_num))
      (clamp_mem _ 90 200 (by norm_num) (by norm_num) (by norm_num))
      (clamp_mem _ 50 130 (by norm_num) (by norm_num) (by norm_num)) (by norm_num)

theorem waterPixel_range (x y : Nat) : ColorInRange (waterPixel x y) :=
  rgb_ok _ _ _ 140 (by norm_num) (by norm_num)

theorem orePixel_range (tile_idx ore_r ore_g ore_b : Int) (x y : Nat) :
    ColorInRange (orePixel tile_idx ore_r ore_g ore_b x y) := by
  unfold orePixel
  dsimp only
  split
  · exact rgb_ok _ _ _ 255 (by norm_num) (by norm_num)
  · exact pixelAt_inRange _ gen_stone_range x y

theorem bedrockPixel_range (x y : Nat) : ColorInRange (bedrockPixel x y) :=
  rgb_ok _ _ _ 255 (by norm_num) (by norm_num)

theorem planksPixel_range (x y : Nat) : ColorInRange (planksPixel x y) :=
  rgb_ok _ _ _ 255 (by norm_num) (by norm_num)

theorem solidItemPixel_range (br bg bb : Int) (mask : Option (Nat → Nat → Bool)) (x y : Nat) :
    ColorInRange (solidItemPixel br bg bb mask x y) := by
  unfold solidItemPixel
  cases mask with
  | none =>
      dsimp only
      split
      · exact rgb_ok _ _ _ 255 (by norm_num) (by norm_num)
      · exact transparent_inRange
  | some m =>
      dsimp only
      split
      · exact rgb_ok _ _ _ 255 (by norm_num) (by norm_num)
      · exact transparent_inRange

theorem glassPixel_range (x y : Nat) : ColorInRange (glassPixel x y) := by
  unfold glassPixel
  dsimp only
  split
  · exact rgb_ok _ _ _ 220 (by norm_num) (by norm_num)
  · exact rgb_ok _ _ _ 60 (by norm_num) (by norm_num)

theorem lavaPixel_range (x y : Nat) : ColorInRange (lavaPixel x y) :=
  rgb_ok _ _ _ 255 (by norm_num) (by norm_num)

theorem obsidianPixel_range (x y : Nat) : ColorInRange (obsidianPixel x y) :=
  rgb_ok _ _ _ 255 (by norm_num) (by norm_num)

theorem farmlandPixel_range (x y : Nat) : ColorInRange (farmlandPixel x y) := by
  have h := pixelAt_inRange _ gen_dirt_range x y
  obtain ⟨-, -, -, -, -, -, ha0, ha1⟩ := h
  unfold farmlandPixel
  dsimp only
  refine colorInRange_mk _ _ _ _ ?_ ?_ ?_ ⟨ha0, ha1⟩ <;>
    · split
      · exact clamp01 _
      · exact clamp01 _

theorem wheatStagePixel_range (stage x y : Nat) : ColorInRange (wheatStagePixel stage x y) := by
  unfold wheatStagePixel
  dsimp only
  split
  · exact transparent_inRange
  · split
    · exact rgb_ok _ _ _ 255 (by norm_num) (by norm_num)
    · split
      · exact rgb_ok _ _ _ 255 (by norm_num) (by norm_num)
      · split
        · exact rgb_ok _ _ _ 200 (by norm_num) (by norm_num)
        · exact transparent_inRange

theorem hoePixel_range (x y : Nat) : ColorInRange (hoePixel x y) := by
  unfold hoePixel
  dsimp only
  split
  · exact rgb_ok _ _ _ 255 (by norm_num) (by norm_num)
  · split
    · exact rgb_ok _ _ _ 255 (by norm_num) (by norm_num)
    · exact transparent_inRange

theorem seedsPixel_range (x y : Nat) : ColorInRange (seedsPixel x y) := by
  unfold seedsPixel
  dsimp only
  split
  · exact rgb_ok _ _ _ 255 (by norm_num) (by norm_num)
  · exact transparent_inRange

theorem wheatItemPixel_range (x y : Nat) : ColorInRange (wheatItemPixel x y) := by
  unfold wheatItemPixel
  dsimp only
  split
  · exact rgb_ok _ _ _ 255 (by norm_num) (by norm_num)
  · split
    · exact rgb_ok _ _ _ 255 (by norm_num) (by norm_num)
    · exact transparent_inRange

/-- Every grid the manifest draws has all channels in `[0, 255]`. -/
theorem manifest_grids_inRange : ∀ e ∈ manifest, GridInRange e.2 := by
  intro e he
  rw [manifest] at he
  rcases List.mem_append.mp he with hAB | hC
  rcases List.mem_append.mp hAB with hA | hB
  · simp only [List.mem_cons, List.not_mem_nil, or_false] at hA
    rcases hA with rfl|rfl|rfl|rfl|rfl|rfl|rfl|rfl|rfl|rfl|rfl|rfl|rfl|rfl|rfl|rfl|rfl|rfl|rfl|rfl|rfl|rfl|rfl|rfl|rfl|rfl|rfl|rfl|rfl|rfl
    · exact gen_air_range
    · exact gridInRange_mkGrid _ stonePixel_range
    · exact gridInRange_mkGrid _ cobblestonePixel_range
    · exact gridInRange_mkGrid _ dirtPixel_range
    · exact gridInRange_mkGrid _ grassTopPixel_range
    · exact gridInRange_mkGrid _ grassSidePixel_range
    · exact gridInRange_mkGrid _ sandPixel_range
    · exact gridInRange_mkGrid _ gravelPixel_range
    · exact gridInRange_mkGrid _ logEndPixel_range
    · exact gridInRange_mkGrid _ logBarkPixel_range
    · exact gridInRange_mkGrid _ leavesPixel_range
    · exact gridInRange_mkGrid _ waterPixel_range
    · exact gridInRange_mkGrid _ (orePixel_range _ _ _ _)
    · exact gridInRange_mkGrid _ (orePixel_range _ _ _ _)
    · exact gridInRange_mkGrid _ (orePixel_range _ _ _ _)
    · exact gridInRange_mkGrid _ (orePixel_range _ _ _ _)
    · exact gridInRange_mkGrid _ bedrockPixel_range
    · exact gridInRange_mkGrid _ (solidItemPixel_range _ _ _ _)
    · exact gridInRange_mkGrid _ (solidItemPixel_range _ _ _ _)
    · exact gridInRange_mkGrid _ planksPixel_range
    · exact gridInRange_mkGrid _ (solidItemPixel_range _ _ _ _)
    · exact gridInRange_mkGrid _ (solidItemPixel_range _ _ _ _)
    · exact gridInRange_mkGrid _ glassPixel_range
    · exact gridInRange_mkGrid _ (solidItemPixel_range _ _ _ _)
    · exact gridInRange_mkGrid _ (solidItemPixel_range _ _ _ _)
    · exact gridInRange_mkGrid _ (solidItemPixel_range _ _ _ _)
    · exact gridInRange_mkGrid _ (solidItemPixel_range _ _ _ _)
    · exact gridInRange_mkGrid _ lavaPixel_range
    · exact gridInRange_mkGrid _ obsidianPixel_range
    · exact gridInRange_mkGrid _ farmlandPixel_range
  · obtain ⟨i, -, rfl⟩ := List.mem_map.mp hB
    exact gridInRange_mkGrid _ (wheatStagePixel_range _)
  · simp only [List.mem_cons, List.not_mem_nil, or_false] at hC
    rcases hC with rfl|rfl|rfl
    · exact gridInRange_mkGrid _ hoePixel_range
    · exact gridInRange_mkGrid _ seedsPixel_range
    · exact gridInRange_mkGrid _ wheatItemPixel_range

/-! ### Helper lemmas: compositor frame properties -/

theorem foldl_apply_eq {α : Type} (l : List α) (f : Atlas → α → Atlas) (a : Atlas)
    (px py : Int) (h : ∀ (b : Atlas) (x : α), x ∈ l → f b x px py = b px py) :
    l.foldl f a px py = a px py := by
  induction l generalizing a with
  | nil => rfl
  | cons hd tl ih =>
      rw [List.foldl_cons, ih (f a hd) (fun b x hx => h b x (List.mem_cons_of_mem _ hx))]
      exact h a hd (List.mem_cons_self _ _)

theorem set_pixel_ne (a : Atlas) (x y px py : Int) (c : Color)
    (h : ¬(px = x ∧ py = y)) : set_pixel a x y c px py = a px py := by
  unfold set_pixel
  split
  · show (if px = x ∧ py = y then c else a px py) = a px py
    exact if_neg h
  · rfl

theorem set_pixel_oob (a : Atlas) (x y : Int) (c : Color)
    (h : ¬(0 ≤ x ∧ x < (ATLAS_WIDTH : Int) ∧ 0 ≤ y ∧ y < (ATLAS_HEIGHT : Int))) :
    set_pixel a x y c = a := by
  unfold set_pixel
  exact if_neg h

theorem set_pixel_point_oob (a : Atlas) (x y px py : Int) (c : Color)
    (h : ¬(0 ≤ px ∧ px < (ATLAS_WIDTH : Int) ∧ 0 ≤ py ∧ py < (ATLAS_HEIGHT : Int))) :
    set_pixel a x y c px py = a px py := by
  unfold set_pixel
  split
  · rename_i hin
    show (if px = x ∧ py = y then c else a px py) = a px py
    refine if_neg ?_
    rintro ⟨rfl, rfl⟩
    exact h hin
  · rfl

theorem cellStep_ne (ox oy : Nat) (pixels : Grid) (y x : Nat) (a : Atlas) (px py : Int)
    (h : ¬(px = ((ox + x : Nat) : Int) ∧ py = ((oy + y : Nat) : Int))) :
    cellStep ox oy pixels y a x px py = a px py := by
  unfold cellStep
  split
  · exact set_pixel_ne _ _ _ _ _ _ h
  · rfl

theorem cellStep_point_oob (ox oy : Nat) (pixels : Grid) (y x : Nat) (a : Atlas) (px py : Int)
    (h : ¬(0 ≤ px ∧ px < (ATLAS_WIDTH : Int) ∧ 0 ≤ py ∧ py < (ATLAS_HEIGHT : Int))) :
    cellStep ox oy pixels y a x px py = a px py := by
  unfold cellStep
  split
  · exact set_pixel_point_oob _ _ _ _ _ _ h
  · rfl

/-- A `draw_tile` never changes a pixel outside the tile's 16×16 region. -/
theorem draw_tile_outside (idx : Nat) (pixels : Grid) (a : Atlas) (px py : Int)
    (h : px < ((tile_origin idx).1 : Int) ∨ ((tile_origin idx).1 + TILE_SIZE : Nat) ≤ px ∨
         py < ((tile_origin idx).2 : Int) ∨ ((tile_origin idx).2 + TILE_SIZE : Nat) ≤ py) :
    draw_tile idx pixels a px py = a px py := by
  unfold draw_tile
  refine foldl_apply_eq _ _ _ _ _ ?_
  intro b y hy
  refine foldl_apply_eq _ _ _ _ _ ?_
  intro b2 x hx
  rw [List.mem_range] at hx hy
  refine cellStep_ne _ _ _ _ _ _ _ _ ?_
  rintro ⟨rfl, rfl⟩
  have h16 : TILE_SIZE = 16 := rfl
  rcases h with h | h | h | h <;> (push_cast at h; omega)

/-- A `draw_tile` never changes a pixel outside the atlas bounds. -/
theorem draw_tile_point_oob (idx : Nat) (pixels : Grid) (a : Atlas) (px py : Int)
    (h : ¬(0 ≤ px ∧ px < (ATLAS_WIDTH : Int) ∧ 0 ≤ py ∧ py < (ATLAS_HEIGHT : Int))) :
    draw_tile idx pixels a px py = a px py := by
  unfold draw_tile
  refine foldl_apply_eq _ _ _ _ _ ?_
  intro b y hy
  refine foldl_apply_eq _ _ _ _ _ ?_
  intro b2 x hx
  exact cellStep_point_oob _ _ _ _ _ _ _ _ h

/-- Distinct tile indices below 64 occupy disjoint atlas regions, so a
draw of tile `j` leaves every pixel of tile `i`'s region unchanged. -/
theorem draw_tile_ne_region (j : Nat) (pixels : Grid) (a : Atlas) (i dx dy : Nat)
    (hij : i ≠ j) (hdx : dx < TILE_SIZE) (hdy : dy < TILE_SIZE) :
    draw_tile j pixels a ((i % 8 * 16 + dx : Nat) : Int) ((i / 8 * 16 + dy : Nat) : Int)
      = a ((i % 8 * 16 + dx : Nat) : Int) ((i / 8 * 16 + dy : Nat) : Int) := by
  refine draw_tile_outside _ _ _ _ _ ?_
  have ho : tile_origin j = (j % 8 * 16, j / 8 * 16) := rfl
  rw [ho]
  have h16 : TILE_SIZE = 16 := rfl
  rw [h16] at hdx hdy ⊢
  push_cast
  omega

/-! ### Further helpers used by individual claims -/

/-- The dirt and grass-top generators never produce the same pixel on the
16×16 domain (their green channels live in disjoint ranges), checked by
evaluation. -/
theorem dirt_ne_grass : ∀ x < 16, ∀ y < 16, dirtPixel x y ≠ grassTopPixel x y := by decide

/-! ### The claims -/

/-- C1: determinism — `noise` is a pure function of its arguments (equal
inputs give equal outputs), and two runs of the full pipeline yield the
same atlas buffer at every pixel. -/
theorem claim_C1 :
    (∀ x1 y1 s1 x2 y2 s2 : Int, x1 = x2 → y1 = y2 → s1 = s2 →
        noise x1 y1 s1 = noise x2 y2 s2) ∧
    (∀ a b : Atlas, a = finalAtlas → b = finalAtlas → ∀ px py : Int, a px py = b px py) := by
  constructor
  · rintro x y s _ _ _ rfl rfl rfl; rfl
  · rintro a b rfl rfl px py; rfl

theorem claim_C1_witness : noise 3 5 7 = noise 3 5 7 ∧ finalAtlas 0 0 = finalAtlas 0 0 :=
  ⟨claim_C1.1 3 5 7 3 5 7 rfl rfl rfl, claim_C1.2 finalAtlas finalAtlas rfl rfl 0 0⟩

/-- C2: the noise function computes `n = x*374761393 + y*668265263 +
seed*1597463007`, then `n = (n XOR (n >> 13)) * 1274126177`, and returns
`(n XOR (n >> 16)) AND 0xFF`, for every integer input. -/
theorem claim_C2 : ∀ x y seed : Int, noise x y seed = hashSpec x y seed :=
  fun _ _ _ => rfl

/-- C3: range invariant — `noise` always lands in `[0, 255]`, and every
channel of every pixel of every grid drawn by the manifest lies in
`[0, 255]`. -/
theorem claim_C3 :
    (∀ x y seed : Int, 0 ≤ noise x y seed ∧ noise x y seed ≤ 255) ∧
    (∀ e ∈ manifest, ∀ row ∈ e.2, ∀ c ∈ row, ColorInRange c) :=
  ⟨noise_mem, manifest_grids_inRange⟩

theorem claim_C3_witness :
    (0 ≤ noise 2 3 1 ∧ noise 2 3 1 ≤ 255) ∧ ColorInRange ((0, 0, 0, 0) : Color) :=
  ⟨claim_C3.1 2 3 1,
   claim_C3.2 (0, gen_air) (by decide)
     (List.replicate TILE_SIZE ((0, 0, 0, 0) : Color)) (by decide)
     ((0, 0, 0, 0) : Color) (by decide)⟩

/-- C4: grass-side composition law — on the 16×16 domain the grass-side
pixel equals the grass-top pixel exactly when `y < 3`, and equals the
dirt pixel exactly when `y ≥ 3`. -/
theorem claim_C4 : ∀ x y : Nat, x < 16 → y < 16 →
    (pixelAt gen_grass_side x y = pixelAt gen_grass_top x y ↔ y < 3) ∧
    (pixelAt gen_grass_side x y = pixelAt gen_dirt x y ↔ 3 ≤ y) := by
  intro x y hx hy
  have hgs : pixelAt gen_grass_side x y = grassSidePixel x y := pixelAt_mkGrid _ x y hx hy
  have hgt : pixelAt gen_grass_top x y = grassTopPixel x y := pixelAt_mkGrid _ x y hx hy
  have hgd : pixelAt gen_dirt x y = dirtPixel x y := pixelAt_mkGrid _ x y hx hy
  have hne : dirtPixel x y ≠ grassTopPixel x y := dirt_ne_grass x hx y hy
  rw [hgs, hgt, hgd]
  unfold grassSidePixel
  rw [hgt, hgd]
  by_cases h3 : y < 3
  · rw [if_pos h3]
    exact ⟨⟨fun _ => h3, fun _ => rfl⟩,
           ⟨fun he => absurd he.symm hne, fun h3' => by omega⟩⟩
  · rw [if_neg h3]
    exact ⟨⟨fun he => absurd he hne, fun hlt => absurd hlt h3⟩,
           ⟨fun _ => by omega, fun _ => rfl⟩⟩

theorem claim_C4_witness :
    (pixelAt gen_grass_side 0 0 = pixelAt gen_grass_top 0 0 ↔ (0 : Nat) < 3) ∧
    (pixelAt gen_grass_side 0 0 = pixelAt gen_dirt 0 0 ↔ 3 ≤ (0 : Nat)) :=
  claim_C4 0 0 (by norm_num) (by norm_num)

/-- C5: ore exactness law — for any ore instance and any pixel whose
vein-threshold test `noise(x*3+7, y*5+11, id) mod 16 < 3` fails, the ore
pixel equals the stone pixel exactly. -/
theorem claim_C5 : ∀ (id ore_r ore_g ore_b : Int) (x y : Nat), x < 16 → y < 16 →
    ¬(noise ((x : Int) * 3 + 7) ((y : Int) * 5 + 11) id % 16 < 3) →
    pixelAt (gen_ore id ore_r ore_g ore_b) x y = pixelAt gen_stone x y := by
  intro id ore_r ore_g ore_b x y hx hy hth
  have h1 : pixelAt (gen_ore id ore_r ore_g ore_b) x y = orePixel id ore_r ore_g ore_b x y :=
    pixelAt_mkGrid _ x y hx hy
  rw [h1]
  unfold orePixel
  rw [if_neg hth]

theorem claim_C5_witness :
    pixelAt (gen_ore 12 40 40 40) 0 0 = pixelAt gen_stone 0 0 :=
  claim_C5 12 40 40 40 0 0 (by norm_num) (by norm_num) (by decide)

/-- C6: wheat height law — for every stage `s < 8` and every
`pixels_from_bottom` value `k < 16`, the row `k` from the bottom of the
stage's tile contains a visible (nonzero-alpha) pixel exactly when
`k` is below the height-table entry `[4,6,8,10,11,13,14,16][s]`, and the
height table is non-decreasing in the stage. -/
theorem claim_C6 : ∀ s : Nat, s < 8 →
    (∀ k : Nat, k < 16 →
      (k < wheatHeightTable.getD s 0 ↔ rowVisible (gen_wheat_stage s) (15 - k) = true)) ∧
    (∀ t : Nat, t < 8 → s ≤ t → wheatHeightTable.getD s 0 ≤ wheatHeightTable.getD t 0) := by
  decide

theorem claim_C6_witness :
    (3 < wheatHeightTable.getD 2 0 ↔ rowVisible (gen_wheat_stage 2) (15 - 3) = true) :=
  (claim_C6 2 (by norm_num)).1 3 (by norm_num)

/-- C7: bounds safety — an out-of-bounds `set_pixel` leaves the atlas
buffer entirely unchanged (and raises no error, being total), and a
`draw_tile` never changes any point outside the atlas rectangle, so a
tile that sticks out writes only its in-bounds pixels. -/
theorem claim_C7 :
    (∀ (a : Atlas) (x y : Int) (c : Color),
        ¬(0 ≤ x ∧ x < (ATLAS_WIDTH : Int) ∧ 0 ≤ y ∧ y < (ATLAS_HEIGHT : Int)) →
        set_pixel a x y c = a) ∧
    (∀ (idx : Nat) (pixels : Grid) (a : Atlas) (px py : Int),
        ¬(0 ≤ px ∧ px < (ATLAS_WIDTH : Int) ∧ 0 ≤ py ∧ py < (ATLAS_HEIGHT : Int)) →
        draw_tile idx pixels a px py = a px py) :=
  ⟨set_pixel_oob, draw_tile_point_oob⟩

theorem claim_C7_witness :
    set_pixel initialAtlas 200 5 (1, 2, 3, 255) = initialAtlas ∧
    draw_tile 0 [] initialAtlas (-1) 0 = initialAtlas (-1) 0 :=
  ⟨claim_C7.1 initialAtlas 200 5 (1, 2, 3, 255) (by decide),
   claim_C7.2 0 [] initialAtlas (-1) 0 (by decide)⟩

/-- C8: sparse-slot law — every pixel of the 16×16 region of a tile
index the manifest never draws (20–30, 35–36, 40–45, 60–63) still holds
the initial fully transparent color in the final atlas. -/
theorem claim_C8 : ∀ i dx dy : Nat, UnusedIdx i → dx < 16 → dy < 16 →
    finalAtlas ((i % 8 * 16 + dx : Nat) : Int) ((i / 8 * 16 + dy : Nat) : Int) = transparent := by
  intro i dx dy hU hdx hdy
  unfold UnusedIdx at hU
  have hframe :
      finalAtlas ((i % 8 * 16 + dx : Nat) : Int) ((i / 8 * 16 + dy : Nat) : Int) =
        initialAtlas ((i % 8 * 16 + dx : Nat) : Int) ((i / 8 * 16 + dy : Nat) : Int) := by
    unfold finalAtlas
    refine foldl_apply_eq _ _ _ _ _ ?_
    intro b e he
    have hin : e.1 ∈ manifest.map Prod.fst := List.mem_map_of_mem _ he
    have hl : manifest.map Prod.fst =
        [0, 1, 2, 3, 4, 5, 6, 7, 8, 9, 10, 11, 12, 13, 14, 15, 16, 17, 18, 19,
         31, 32, 33, 34, 37, 38, 39, 46, 47, 48,
         49, 50, 51, 52, 53, 54, 55, 56, 57, 58, 59] := rfl
    rw [hl] at hin
    simp only [List.mem_cons, List.not_mem_nil, or_false] at hin
    rcases hin with h|h|h|h|h|h|h|h|h|h|h|h|h|h|h|h|h|h|h|h|h|h|h|h|h|h|h|h|h|h|h|h|h|h|h|h|h|h|h|h|h <;>
      rw [h] <;> exact draw_tile_ne_region _ _ _ i dx dy (by omega) hdx hdy
  rw [hframe]
  rfl

theorem claim_C8_witness :
    finalAtlas ((20 % 8 * 16 + 0 : Nat) : Int) ((20 / 8 * 16 + 0 : Nat) : Int) = transparent :=
  claim_C8 20 0 0 (Or.inl (by norm_num)) (by norm_num) (by norm_num)

/-- C9: atlas geometry — the computed dimensions are 128×128, every tile
index below 64 maps to pixel origin `((i mod 8)·16, (i div 8)·16)`, and
tile 9 in particular maps to `(16, 16)`. -/
theorem claim_C9 : ATLAS_WIDTH = 128 ∧ ATLAS_HEIGHT = 128 ∧
    (∀ i : Nat, i < 64 → tile_origin i = (i % 8 * 16, i / 8 * 16)) ∧
    tile_origin 9 = (16, 16) :=
  ⟨rfl, rfl, fun _ _ => rfl, rfl⟩

theorem claim_C9_witness : tile_origin 9 = (9 % 8 * 16, 9 / 8 * 16) :=
  claim_C9.2.2.1 9 (by norm_num)

/-- C10: `draw_tile` on a ragged or short grid raises no error (it is
total, with the guard `y < len(pixels) and x < len(pixels[y])` guarding
each read) and leaves every cell of the tile's 16×16 region whose grid
entry is missing unchanged. -/
theorem claim_C10 : ∀ (idx : Nat) (pixels : Grid) (a : Atlas) (dx dy : Nat),
    dx < 16 → dy < 16 →
    (pixels.length ≤ dy ∨ (pixels.getD dy []).length ≤ dx) →
    draw_tile idx pixels a (((tile_origin idx).1 + dx : Nat) : Int)
        (((tile_origin idx).2 + dy : Nat) : Int)
      = a (((tile_origin idx).1 + dx : Nat) : Int) (((tile_origin idx).2 + dy : Nat) : Int) := by
  intro idx pixels a dx dy hdx hdy hmiss
  unfold draw_tile
  refine foldl_apply_eq _ _ _ _ _ ?_
  intro b y hy
  refine foldl_apply_eq _ _ _ _ _ ?_
  intro b2 x hx
  rw [List.mem_range] at hx hy
  unfold cellStep
  split
  · rename_i hguard
    refine set_pixel_ne _ _ _ _ _ _ ?_
    rintro ⟨h1, h2⟩
    have hxy : x = dx ∧ y = dy := by
      push_cast at h1 h2
      omega
    obtain ⟨rfl, rfl⟩ := hxy
    rcases hmiss with hm | hm <;> omega
  · rfl

theorem claim_C10_witness :
    draw_tile 0 [] initialAtlas (((tile_origin 0).1 + 0 : Nat) : Int)
        (((tile_origin 0).2 + 0 : Nat) : Int)
      = initialAtlas (((tile_origin 0).1 + 0 : Nat) : Int) (((tile_origin 0).2 + 0 : Nat) : Int) :=
  claim_C10 0 [] initialAtlas 0 0 (by norm_num) (by norm_num) (Or.inl (by decide))
